import Mathlib

/-
Verification of the data-access layer in database/db_util.py.

The Python source is shallowly embedded: pure string-building code becomes
Lean functions on String, the sqlite engine and pandas are abstracted as
explicit oracles (records of Boolean or function-valued fields saying which
statements fail and what rows a query returns), and Python exceptions are
modelled by an explicit error type threaded through the results.  Python
local-variable scoping matters for two error paths and is modelled
explicitly: referencing a local variable before its assignment raises
UnboundLocalError.
-/

namespace DbUtil

/-- Exceptions that the embedded code can raise.  UnboundLocalError carries
the name of the referenced-before-assignment local variable. -/
inductive PyError where
  | valueError (msg : String) : PyError
  | unboundLocalError (var : String) : PyError
  | attributeError (attr : String) : PyError
  | sqliteError : PyError
  | otherError : PyError
deriving DecidableEq, Repr

/-- Character-level slice s[:n] of Python, used by Database.update via
query[:len(query) - 3]. -/
def strTake (s : String) (n : Nat) : String := ⟨s.data.take n⟩

/-- Statement built by Database.update (db_util.py lines 205-217) before it
is handed to execute: starts from "UPDATE <table> SET ", appends
"<key> <value> , " per entry of new_vals (an ordered mapping, modelled as an
association list), removes the last three characters, then appends the WHERE
clause from the two-element prim_key_id. -/
def update_query (table_name : String) (new_vals : List (String × String))
    (prim_key_id : String × String) : String :=
  let query := "UPDATE " ++ table_name ++ " SET "
  let query := new_vals.foldl (fun q kv => q ++ kv.1 ++ " " ++ kv.2 ++ " , ") query
  let query := strTake query (query.length - 3)
  query ++ " WHERE " ++ prim_key_id.1 ++ " = " ++ prim_key_id.2

/-- Spec-side form of the SET clause: the assignments
"<col> <fragment>" joined by the separator " , " with no trailing
separator.  Stated from the words of the spec for comparison with
update_query. -/
def setClause : List (String × String) → String
  | [] => ""
  | [kv] => kv.1 ++ " " ++ kv.2
  | kv :: rest => kv.1 ++ " " ++ kv.2 ++ " , " ++ setClause rest

/-- The SET clause with a trailing separator after every assignment,
matching what the fold in Database.update accumulates. -/
def setClauseTrail : List (String × String) → String
  | [] => ""
  | kv :: rest => kv.1 ++ " " ++ kv.2 ++ " , " ++ setClauseTrail rest

lemma foldl_update_eq (new_vals : List (String × String)) (init : String) :
    new_vals.foldl (fun q kv => q ++ kv.1 ++ " " ++ kv.2 ++ " , ") init
      = init ++ setClauseTrail new_vals := by
  induction new_vals generalizing init with
  | nil => simp [setClauseTrail]
  | cons kv rest ih =>
    rw [List.foldl_cons, ih]
    simp [setClauseTrail, String.append_assoc]

lemma setClauseTrail_eq (new_vals : List (String × String)) (h : new_vals ≠ []) :
    setClauseTrail new_vals = setClause new_vals ++ " , " := by
  induction new_vals with
  | nil => exact absurd rfl h
  | cons kv rest ih =>
    cases rest with
    | nil => simp [setClauseTrail, setClause]
    | cons kv2 rest2 =>
      show kv.1 ++ " " ++ kv.2 ++ " , " ++ setClauseTrail (kv2 :: rest2)
        = kv.1 ++ " " ++ kv.2 ++ " , " ++ setClause (kv2 :: rest2) ++ " , "
      rw [ih (by simp)]
      simp [String.append_assoc]

lemma strTake_append_sep (a : String) :
    strTake (a ++ " , ") ((a ++ " , ").length - 3) = a := by
  apply String.ext
  show ((a ++ " , ").data.take ((a ++ " , ").length - 3)) = a.data
  have hlen : (a ++ " , ").length - 3 = a.data.length := by
    rw [String.length_append]
    show a.length + 3 - 3 = a.data.length
    rfl
  rw [hlen, String.data_append]
  exact List.take_left a.data _

/-- C5: for non-empty new_vals, Database.update builds exactly
"UPDATE <table> SET <col1> <frag1> , ... <colN> <fragN> WHERE <k> = <v>":
the trailing trim removes precisely the final " , " separator appended after
the last assignment, for all column-name and value-fragment lengths. -/
theorem update_query_nonempty (table_name : String)
    (new_vals : List (String × String)) (k v : String) (h : new_vals ≠ []) :
    update_query table_name new_vals (k, v)
      = "UPDATE " ++ table_name ++ " SET " ++ setClause new_vals
          ++ " WHERE " ++ k ++ " = " ++ v := by
  simp only [update_query, foldl_update_eq, setClauseTrail_eq new_vals h,
    ← String.append_assoc, strTake_append_sep]

/-- Witness for C5 at a concrete two-assignment input. -/
theorem update_query_nonempty_witness :
    update_query "images" [("label", "= 5"), ("size", "= 10")] ("id", "3")
      = "UPDATE " ++ "images" ++ " SET "
          ++ setClause [("label", "= 5"), ("size", "= 10")]
          ++ " WHERE " ++ "id" ++ " = " ++ "3" :=
  update_query_nonempty "images" [("label", "= 5"), ("size", "= 10")] "id" "3"
    (by simp)

lemma strTake_trunc_set (a : String) :
    strTake (a ++ " SET ") ((a ++ " SET ").length - 3) = a ++ " S" := by
  apply String.ext
  show ((a ++ " SET ").data.take ((a ++ " SET ").length - 3)) = (a ++ " S").data
  have h1 : (a ++ " SET ").length - 3 = a.data.length + 2 := by
    rw [String.length_append]
    show a.data.length + 5 - 3 = a.data.length + 2
    omega
  rw [h1, String.data_append, List.take_append, String.data_append]
  rfl

/-- C6: with an empty new_vals mapping, the unconditional removal of the last
three characters eats into the SET keyword itself and Database.update builds
the malformed statement "UPDATE <table> S WHERE <k> = <v>". -/
theorem update_query_empty (table_name k v : String) :
    update_query table_name [] (k, v)
      = "UPDATE " ++ table_name ++ " S WHERE " ++ k ++ " = " ++ v := by
  have h2 : (" S" : String) ++ " WHERE " = " S WHERE " := rfl
  simp only [update_query, List.foldl_nil, strTake_trunc_set]
  rw [String.append_assoc ("UPDATE " ++ table_name) " S" " WHERE ", h2]

/-- Gregorian leap-year test, as used by the Python datetime module. -/
def isLeap (y : Nat) : Bool := y % 4 == 0 && (y % 100 != 0 || y % 400 == 0)

/-- Number of days of month m in year y. -/
def daysInMonth (y m : Nat) : Nat :=
  if m = 2 then (if isLeap y then 29 else 28)
  else if m = 4 ∨ m = 6 ∨ m = 9 ∨ m = 11 then 30
  else 31

/-- Numeric value of a list of decimal digit characters. -/
def digitsToNat (cs : List Char) : Nat := cs.foldl (fun n c => 10 * n + (c.toNat - 48)) 0

/-- Modelled from the Python standard library: datetime.strptime(s, p) for
the pattern %Y%m%d, restricted to 8-character digit strings, the shape the
spec names YYYYMMDD.  Returns the (year, month, day) triple when s is 8
decimal digits splitting 4-2-2 into a valid calendar date with year at least
1, and none (a parse failure, which raises in Python) otherwise; a missing
date (Python None) is handled by the caller. -/
def parseYMD (s : String) : Option (Nat × Nat × Nat) :=
  let cs := s.data
  if cs.length = 8 ∧ cs.all Char.isDigit = true then
    let y := digitsToNat (cs.take 4)
    let m := digitsToNat ((cs.drop 4).take 2)
    let d := digitsToNat (cs.drop 6)
    if 1 ≤ y ∧ 1 ≤ m ∧ m ≤ 12 ∧ 1 ≤ d ∧ d ≤ daysInMonth y m then some (y, m, d)
    else none
  else none

/-- Decimal rendering of n, zero-padded on the left to the given width. -/
def pad (width n : Nat) : String :=
  let s := toString n
  ⟨List.replicate (width - s.length) (Char.ofNat 48)⟩ ++ s

/-- strftime of the pattern %Y-%m-%d: zero-padded year, month and day joined
by hyphens. -/
def fmtDate (y m d : Nat) : String := pad 4 y ++ "-" ++ pad 2 m ++ "-" ++ pad 2 d

/-- Modelled from the spec: a parameterized SELECT template with a single
format placeholder; subst substitutes the date into that placeholder.  The
concrete SQL text lives in external configuration outside src. -/
structure Template where
  beforeArg : String
  afterArg : String

/-- Substitution of the single format placeholder of a template. -/
def Template.subst (t : Template) (date : String) : String :=
  t.beforeArg ++ date ++ t.afterArg

/-- Modelled from the spec: the query template set
(select_from_table_commands, external configuration outside src) holding the
three named templates the Data Puller selects among. -/
structure SelectCmds where
  select_all : String
  select_images : Template
  select_images_filtered_size : Template

/-- Embeds get_query (db_util.py lines 68-84), including the Python scoping
behavior of its handler.  When all is true the select_all template is chosen
with no date parsing.  Otherwise strptime parses image_date; on success the
date is reformatted to YYYY-MM-DD and substituted into the single
placeholder of select_images or select_images_filtered_size according to
filtered_size.  On parse failure (malformed string, or a missing date, for
which strptime raises TypeError) the bare except runs
raise ValueError(message), but the message is an f-string reading the local
variable date, which was never assigned, so evaluating it raises
UnboundLocalError for date, and that error is what propagates. -/
def get_query (cmds : SelectCmds) (image_date : Option String)
    (filtered_size all : Bool) : Except PyError String :=
  if all then .ok cmds.select_all
  else
    match image_date.bind parseYMD with
    | none => .error (.unboundLocalError "date")
    | some (y, m, d) =>
      let date := fmtDate y m d
      .ok ((if filtered_size then cmds.select_images_filtered_size
            else cmds.select_images).subst date)

/-- Concrete template set used by the witness theorems. -/
def cmdsFix : SelectCmds :=
  ⟨"SELECT * FROM images",
   ⟨"SELECT * FROM images WHERE image_date = ", ""⟩,
   ⟨"SELECT * FROM images WHERE size > 0 AND image_date = ", ""⟩⟩

/-- C1: on the filter path (all false), a date that does not parse as
YYYYMMDD — including a missing date — makes get_query raise, but the escaping
error is UnboundLocalError for the local variable date (read by the handler
before assignment), not the ValueError describing the expected format that
the raise statement intends. -/
theorem get_query_parse_failure (cmds : SelectCmds) (fs : Bool) (s : String)
    (h : parseYMD s = none) :
    get_query cmds (some s) fs false = .error (.unboundLocalError "date")
    ∧ get_query cmds none fs false = .error (.unboundLocalError "date") := by
  constructor <;> simp [get_query, h]

/-- Witness for C1 at the spec test input "2023-01-01" (wrong format). -/
theorem get_query_parse_failure_witness :
    parseYMD "2023-01-01" = none
    ∧ get_query cmdsFix (some "2023-01-01") false false
        = .error (.unboundLocalError "date") :=
  ⟨by decide, (get_query_parse_failure cmdsFix false "2023-01-01" (by decide)).1⟩

/-- C7: on the filter path (all false), a valid YYYYMMDD date is reformatted
to YYYY-MM-DD and substituted into the single placeholder of the
select_images template, or of the select_images_filtered_size template when
filtered_size is true. -/
theorem get_query_valid_date (cmds : SelectCmds) (fs : Bool) (s : String)
    (y m d : Nat) (h : parseYMD s = some (y, m, d)) :
    get_query cmds (some s) fs false
      = .ok ((if fs then cmds.select_images_filtered_size
              else cmds.select_images).subst (fmtDate y m d)) := by
  simp [get_query, h]

/-- Witness for C7 at the spec test input "20230101", whose reformatted form
is the string "2023-01-01". -/
theorem get_query_valid_date_witness :
    parseYMD "20230101" = some (2023, 1, 1)
    ∧ fmtDate 2023 1 1 = "2023-01-01"
    ∧ get_query cmdsFix (some "20230101") false false
        = .ok ((if false then cmdsFix.select_images_filtered_size
                else cmdsFix.select_images).subst (fmtDate 2023 1 1))
    ∧ get_query cmdsFix (some "20230101") true false
        = .ok ((if true then cmdsFix.select_images_filtered_size
                else cmdsFix.select_images).subst (fmtDate 2023 1 1)) :=
  ⟨by decide, by decide,
   get_query_valid_date cmdsFix false "20230101" 2023 1 1 (by decide),
   get_query_valid_date cmdsFix true "20230101" 2023 1 1 (by decide)⟩

/-- C8: with all true, get_query selects the select_all template for every
image_date (present, missing, or malformed) and every filtered_size, and no
date parsing happens, so no error is raised on this path. -/
theorem get_query_all (cmds : SelectCmds) (image_date : Option String)
    (fs : Bool) : get_query cmds image_date fs true = .ok cmds.select_all := rfl

/-- A live sqlite connection handle. -/
structure Conn where
  id : Nat
deriving DecidableEq, Repr

/-- Database instance: its only state is the connection handle, which
create_connection leaves at none (the Python None) when opening fails. -/
structure Database where
  conn : Option Conn

/-- One row of a result set: a tuple of scalar values. -/
abbrev Row := List String

/-- Oracle for the sqlite engine: which statements fail to execute, and the
rows a successful SELECT returns. -/
structure Env where
  queryFails : String → Bool
  queryRows : String → List Row

/-- Outcome of Database.execute: console output, whether rollback was issued
on the connection, and the exception escaping to the caller, if any. -/
structure ExecResult where
  logs : List String
  rolledBack : Bool
  raised : Option PyError

/-- Embeds Database.execute (db_util.py lines 142-152).  With a null
connection, self.conn.cursor() raises AttributeError, the bare except prints
the tagged message, and then self.conn.rollback() inside the handler raises
AttributeError on the None connection again; an error raised inside the
handler propagates.  With a live connection, an execution failure is printed
and rolled back and nothing is raised. -/
def Database.execute (db : Database) (operation query : String) (env : Env) :
    ExecResult :=
  match db.conn with
  | none => ⟨["Error in " ++ operation ++ " operation"], false,
             some (.attributeError "rollback")⟩
  | some _ =>
    if env.queryFails query then
      ⟨["Error in " ++ operation ++ " operation"], true, none⟩
    else ⟨[], false, none⟩

/-- C2 counterexample: on a Database whose connection handle is null, an
execution error is not swallowed — execute raises AttributeError (from the
rollback inside its own handler) to the caller. -/
theorem execute_null_conn_raises :
    (Database.execute ⟨none⟩ "update" "SELECT 1"
        ⟨fun _ => true, fun _ => []⟩).raised
      = some (.attributeError "rollback") := rfl

/-- C2 (amended): on a Database with a live (non-null) connection, execute
never raises; on an execution error it prints the message tagged with the
operation label and rolls back the connection. -/
theorem execute_live_conn (c : Conn) (env : Env) (operation query : String) :
    (Database.execute ⟨some c⟩ operation query env).raised = none
    ∧ (env.queryFails query = true →
        (Database.execute ⟨some c⟩ operation query env).logs
            = ["Error in " ++ operation ++ " operation"]
        ∧ (Database.execute ⟨some c⟩ operation query env).rolledBack = true) := by
  constructor
  · by_cases h : env.queryFails query <;> simp [Database.execute, h]
  · intro h
    simp [Database.execute, h]

/-- Witness for the amended C2 at a concrete failing statement. -/
theorem execute_live_conn_witness :
    (Database.execute ⟨some ⟨0⟩⟩ "update" "Q" ⟨fun _ => true, fun _ => []⟩).raised
        = none
    ∧ (Database.execute ⟨some ⟨0⟩⟩ "update" "Q"
          ⟨fun _ => true, fun _ => []⟩).rolledBack = true := by
  have h := execute_live_conn ⟨0⟩ ⟨fun _ => true, fun _ => []⟩ "update" "Q"
  exact ⟨h.1, (h.2 rfl).2⟩

/-- Statement built by Database.read (lines 183-186): the conditions
fragment, when present, is appended verbatim after a space. -/
def read_query (table_name cols_needed : String) (conditions : Option String) :
    String :=
  match conditions with
  | none => "SELECT " ++ cols_needed ++ " FROM " ++ table_name
  | some c => "SELECT " ++ cols_needed ++ " FROM " ++ table_name ++ " " ++ c

/-- Result of Database.read: the value returned to the caller (none models
the implicit Python None returned after a swallowed failure) and any
escaping exception. -/
structure ReadResult where
  result : Option (List Row)
  raised : Option PyError

/-- Embeds Database.read (lines 176-194): builds the SELECT statement; on
success returns the fetched rows; on execution failure prints, rolls back,
and falls off the end of the function body, so the caller receives the
Python None rather than a list. -/
def Database.read (db : Database) (table_name cols_needed : String)
    (conditions : Option String) (env : Env) : ReadResult :=
  let query := read_query table_name cols_needed conditions
  match db.conn with
  | none => ⟨none, some (.attributeError "rollback")⟩
  | some _ =>
    if env.queryFails query then ⟨none, none⟩
    else ⟨some (env.queryRows query), none⟩

/-- C10: when the built SELECT statement fails to execute, Database.read
returns the null value — distinct from every list, in particular from the
empty list — while a successful query returns the fetched list of rows,
which is empty when no row matches. -/
theorem read_none_on_failure (c : Conn) (env : Env)
    (table_name cols_needed : String) (conditions : Option String) :
    (env.queryFails (read_query table_name cols_needed conditions) = true →
      (Database.read ⟨some c⟩ table_name cols_needed conditions env).result = none
      ∧ ∀ rows : List Row,
          (Database.read ⟨some c⟩ table_name cols_needed conditions env).result
            ≠ some rows)
    ∧ (env.queryFails (read_query table_name cols_needed conditions) = false →
      (Database.read ⟨some c⟩ table_name cols_needed conditions env).result
        = some (env.queryRows (read_query table_name cols_needed conditions))) := by
  constructor
  · intro h
    refine ⟨by simp [Database.read, h], ?_⟩
    intro rows
    simp [Database.read, h]
  · intro h
    simp [Database.read, h]

/-- Witness for C10: a failing SELECT yields the null result, while a
successful SELECT matching no rows yields the empty list. -/
theorem read_none_on_failure_witness :
    (Database.read ⟨some ⟨0⟩⟩ "images" "*" none
        ⟨fun _ => true, fun _ => []⟩).result = none
    ∧ (Database.read ⟨some ⟨0⟩⟩ "images" "*" none
        ⟨fun _ => false, fun _ => []⟩).result = some [] :=
  ⟨((read_none_on_failure ⟨0⟩ ⟨fun _ => true, fun _ => []⟩ "images" "*" none).1
      rfl).1,
   (read_none_on_failure ⟨0⟩ ⟨fun _ => false, fun _ => []⟩ "images" "*" none).2
      rfl⟩

/-- How the append of the dataframe (df.to_sql) behaves once the connection
is open: success, a sqlite3.Error, or an error of any other class. -/
inductive AppendOutcome where
  | ok : AppendOutcome
  | sqliteErr : AppendOutcome
  | otherErr : AppendOutcome
deriving DecidableEq, Repr

/-- Oracle for one insert_db call: whether sqlite3.connect raises, and how
the append behaves when the connection does open. -/
structure InsertEnv where
  connectFails : Bool
  append : AppendOutcome

/-- Outcome of insert_db: whether a connection was opened during the call,
whether it was closed by the time the call completed, the console output,
and any exception escaping to the caller. -/
structure InsertResult where
  connOpened : Bool
  connClosed : Bool
  logs : List String
  raised : Option PyError

/-- Embeds insert_db (db_util.py lines 33-55).  try: connect, append the
dataframe, commit, close; except sqlite3.Error: print the failure message;
finally: if conn, close it.  When connect itself raises, the except clause
swallows the sqlite error, but the finally clause then reads the local
variable conn, which was never assigned, so UnboundLocalError escapes the
call.  When the append raises a sqlite3.Error it is swallowed and the
finally clause closes the connection; a non-sqlite error from the append is
not caught and propagates, the finally clause still closing the connection
first.  On success the connection is closed in the body and the finally
clause closes it again (a no-op). -/
def insert_db (env : InsertEnv) : InsertResult :=
  if env.connectFails then
    ⟨false, false, ["Failed to Insert into table "],
     some (.unboundLocalError "conn")⟩
  else
    match env.append with
    | .ok =>
      ⟨true, true, ["a. Connected to Sqlite", "b. Inserted into Database",
                   "c. Sqlite connection is closed"], none⟩
    | .sqliteErr =>
      ⟨true, true, ["a. Connected to Sqlite", "Failed to Insert into table ",
                   "c. Sqlite connection is closed"], none⟩
    | .otherErr =>
      ⟨true, true, ["a. Connected to Sqlite",
                   "c. Sqlite connection is closed"], some .otherError⟩

/-- C3: when the connection fails to open, the sqlite error is indeed caught
and logged, but insert_db does not return normally — the finally clause
reads the never-assigned local conn and UnboundLocalError escapes to the
caller.  (A sqlite error during the append, by contrast, is swallowed.) -/
theorem insert_db_connect_failure (env : InsertEnv)
    (h : env.connectFails = true) :
    (insert_db env).raised = some (.unboundLocalError "conn")
    ∧ (insert_db env).logs = ["Failed to Insert into table "] := by
  simp [insert_db, h]

/-- Witness for C3 at a concrete environment whose connect raises. -/
theorem insert_db_connect_failure_witness :
    (insert_db ⟨true, .ok⟩).raised = some (.unboundLocalError "conn")
    ∧ (insert_db ⟨true, .ok⟩).logs = ["Failed to Insert into table "] :=
  insert_db_connect_failure ⟨true, .ok⟩ rfl

/-- C4: on every exit path of insert_db — success, sqlite error, or an
unexpected error from the body — a connection opened by the call is closed
before the call completes. -/
theorem insert_db_closes_connection (env : InsertEnv)
    (h : (insert_db env).connOpened = true) :
    (insert_db env).connClosed = true := by
  by_cases hc : env.connectFails
  · simp [insert_db, hc] at h
  · cases ha : env.append <;> simp [insert_db, hc, ha]

/-- Witness for C4 on the three exit paths that open a connection. -/
theorem insert_db_closes_connection_witness :
    (insert_db ⟨false, .ok⟩).connClosed = true
    ∧ (insert_db ⟨false, .sqliteErr⟩).connClosed = true
    ∧ (insert_db ⟨false, .otherErr⟩).connClosed = true :=
  ⟨insert_db_closes_connection ⟨false, .ok⟩ rfl,
   insert_db_closes_connection ⟨false, .sqliteErr⟩ rfl,
   insert_db_closes_connection ⟨false, .otherErr⟩ rfl⟩

/-- Modelled from the spec: the configured unlabeled sentinel constant
(DBConstants.IMG_UNLBLED in constants/genericconstants.py, outside src). -/
def IMG_UNLBLED : String := "unlabeled"

/-- pandas Series.fillna on one entry of the label column: a missing entry
becomes the given fill value, a present entry is kept unchanged. -/
def fillna (fill : String) : Option String → Option String
  | none => some fill
  | some v => some v

/-- Embeds the post-processing step of pull_data (db_util.py line 102): the
label column of the fetched dataframe, modelled as the list of its optional
entries, has every missing entry replaced with the IMG_UNLBLED sentinel; the
returned table carries the resulting column. -/
def pull_data_labels (fetched : List (Option String)) : List (Option String) :=
  fetched.map (fillna IMG_UNLBLED)

/-- C9: in the table pull_data returns, every label entry is either a value
present in the fetched result or exactly the unlabeled sentinel, and no
entry is missing. -/
theorem pull_data_labels_no_missing (fetched : List (Option String))
    (l : Option String) (h : l ∈ pull_data_labels fetched) :
    l ≠ none ∧ (l ∈ fetched ∨ l = some IMG_UNLBLED) := by
  simp only [pull_data_labels, List.mem_map] at h
  obtain ⟨x, hx, rfl⟩ := h
  cases x with
  | none => exact ⟨by simp [fillna], Or.inr (by simp [fillna])⟩
  | some v => exact ⟨by simp [fillna], Or.inl (by simpa [fillna] using hx)⟩

/-- Witness for C9 on a fetched column holding one label and one missing
entry. -/
theorem pull_data_labels_no_missing_witness :
    some IMG_UNLBLED ∈ pull_data_labels [some "copepod", none]
    ∧ (some IMG_UNLBLED ≠ (none : Option String)
       ∧ (some IMG_UNLBLED ∈ [some "copepod", none]
          ∨ some IMG_UNLBLED = some IMG_UNLBLED)) := by
  have hm : some IMG_UNLBLED ∈ pull_data_labels [some "copepod", none] := by
    simp [pull_data_labels, fillna]
  exact ⟨hm, pull_data_labels_no_missing [some "copepod", none] (some IMG_UNLBLED) hm⟩

end DbUtil
